import Mathlib

/-!
Shallow embedding of the PjPlots core (namespace `PjPlot` in the C++ source):
shape descriptors (`StaticSize2`, `DynamicSize2`), the `ArrayNd` container with
its row-major linear indexing (`calculate_linear_idx`), the success/failure
`ResultWithValue` type, `AppearanceOptions` with its validating factory, and the
`Chart`/`Factory` plot facade.

Modelling conventions:
- `size_t` values become `Nat`; the underlying type of `enum class Colour`
  (`int`) becomes `Int`, so that colour values obtained by reinterpreting raw
  integers are representable.
- contiguous storage (`std::array` for static shapes, `std::vector` for dynamic
  shapes) becomes `List`; both are value-initialized on construction, which for
  the element types used here means every slot holds the zero/default value.
- a C++ function that throws becomes a function into `Except String`/`Option`;
  `std::out_of_range` element access through `operator[]` (unchecked in C++)
  is modelled with `List.getElem?`, so an out-of-bounds offset shows up as
  `none` rather than undefined behaviour.
-/

namespace PjPlot

/-- Packed 4-channel colour (`class RGBA`): four `uint8_t` channels with no
default member initializers, so value-initialization zeroes every channel.
Channels are modelled as `Nat`; no arithmetic is performed on them. -/
structure RGBA where
  m_r : Nat
  m_g : Nat
  m_b : Nat
  m_a : Nat
deriving Repr, DecidableEq

/-- The value of an `RGBA` produced by value-initialization (all channels 0):
this is the state of every element of a freshly constructed colour array. -/
def RGBA.valueInit : RGBA := ⟨0, 0, 0, 0⟩

instance : Inhabited RGBA := ⟨RGBA.valueInit⟩

/-- Embedding of the C++ `Size2` concept: a 2-D shape descriptor exposing
`rows()` and `cols()` accessors (satisfied by `StaticSize2<R, C>` and
`DynamicSize2` in the source). -/
class Size2 (S : Type) where
  rows : S → Nat
  cols : S → Nat

/-- `struct StaticSize2<Rows, Cols>`: a stateless shape descriptor whose
extents are part of the type (compile-time constants in the source, type-level
`Nat` parameters here). -/
structure StaticSize2 (Rows Cols : Nat) where
  mk ::

instance {R C : Nat} : Size2 (StaticSize2 R C) where
  rows _ := R
  cols _ := C

instance {R C : Nat} : Inhabited (StaticSize2 R C) := ⟨StaticSize2.mk⟩

/-- `struct DynamicSize2`: a shape descriptor whose extents are ordinary
fields supplied at construction time. -/
structure DynamicSize2 where
  m_rows : Nat
  m_cols : Nat
deriving Repr, DecidableEq

instance : Size2 DynamicSize2 where
  rows s := s.m_rows
  cols s := s.m_cols

/-- Total element count `nele()`: both `StaticSize2::nele` and
`DynamicSize2::nele` return `rows()*cols()`. -/
def nele {S : Type} [Size2 S] (s : S) : Nat :=
  Size2.rows s * Size2.cols s

/-- Runtime semantics of the 2-D `calculate_linear_idx(Size2 auto dims, size_t
row, size_t col)`. In the source the two bounds tests are written `if constexpr
(row >= dims.rows())` / `if constexpr (col >= dims.cols())` on the runtime
parameters `row`/`col`, so they are not runtime checks (the spec records this
defect in section 9); the function computes `row_idx = row * dims.cols()` and
returns `row_idx + col` unconditionally. -/
def calculate_linear_idx {S : Type} [Size2 S] (dims : S) (row col : Nat) : Nat :=
  let row_idx := row * Size2.cols dims
  row_idx + col

/-- Runtime semantics of the 1-D overload `calculate_linear_idx(Size1 auto
dims, size_t idx)`: the bounds test is again inside `if constexpr` on the
runtime parameter, and the function returns `idx` unchanged. -/
def calculate_linear_idx_1d (dims_length idx : Nat) : Nat :=
  idx

/-- Modelled from the spec (sections 4.1 and 7), for comparison with the source
`calculate_linear_idx`: bounds validation must occur at call time for every
index, and `index >= extent` is an indexing fault. `none` models the fault. -/
def calculate_linear_idx_required {S : Type} [Size2 S] (dims : S) (row col : Nat) :
    Option Nat :=
  if row < Size2.rows dims ∧ col < Size2.cols dims then
    some (row * Size2.cols dims + col)
  else
    none

/-- `class ArrayNd<T, Size>`: owns one shape descriptor (`m_size`) and one
storage instance (`m_data`, a `std::array` for static shapes and a
`std::vector` for dynamic shapes, both modelled as `List T`). -/
structure ArrayNd (T : Type) (S : Type) [Size2 S] where
  m_size : S
  m_data : List T

/-- The two `ArrayNd` constructors: the static one default-initializes the
inline `std::array<T, nele>` member with `m_data()`, the dynamic one builds
`std::vector<T>(size.nele())`; in both cases every one of the `nele` slots is
value-initialized to the element type's default value. -/
def ArrayNd.make {T S : Type} [Inhabited T] [Size2 S] (size : S) : ArrayNd T S :=
  ⟨size, List.replicate (nele size) default⟩

/-- `ArrayNd::nele()`: returns `m_size.nele()`. -/
def ArrayNd.nele {T S : Type} [Size2 S] (a : ArrayNd T S) : Nat :=
  PjPlot.nele a.m_size

/-- Read through `ArrayNd::operator()(row, col)`: returns
`m_data[calculate_linear_idx(m_size, row, col)]`. The `List.getElem?` models
the unchecked `operator[]` storage access: `none` is an out-of-bounds access. -/
def ArrayNd.get2 {T S : Type} [Size2 S] (a : ArrayNd T S) (row col : Nat) : Option T :=
  a.m_data[calculate_linear_idx a.m_size row col]?

/-- Write through the reference returned by `ArrayNd::operator()(row, col)`:
stores `v` at linear offset `calculate_linear_idx(m_size, row, col)`.
(`List.set` leaves the list unchanged when the offset is out of range.) -/
def ArrayNd.set2 {T S : Type} [Size2 S] (a : ArrayNd T S) (row col : Nat) (v : T) :
    ArrayNd T S :=
  { a with m_data := a.m_data.set (calculate_linear_idx a.m_size row col) v }

/-- Pointer traversal from `begin()` to `end()`: `begin()` is `m_data.data()`
(offset 0), `end()` is `m_data.data() + m_data.size()`, and the iteration
dereferences and increments until the two meet. `iterFrom data i` is the
sequence of elements visited from offset `i` onwards. -/
def iterFrom {T : Type} (data : List T) (i : Nat) : List T :=
  if h : i < data.length then data.get ⟨i, h⟩ :: iterFrom data (i + 1) else []
termination_by data.length - i

/-- One full iteration of an `ArrayNd` from `begin()` to `end()`. -/
def ArrayNd.iterate {T S : Type} [Size2 S] (a : ArrayNd T S) : List T :=
  iterFrom a.m_data 0

/-- `class FailureType`: wraps a failure message. -/
structure FailureType where
  m_message : String
deriving Repr, DecidableEq

/-- `FailureType::get_message()`. -/
def FailureType.get_message (f : FailureType) : String :=
  f.m_message

/-- The `std::variant<T, FailureType>` member of `ResultWithValue`. -/
inductive ResultVariant (T : Type) where
  | value : T → ResultVariant T
  | failure : FailureType → ResultVariant T
deriving Repr, DecidableEq

/-- `class ResultWithValue<T>`: holds either a successful value or a
`FailureType` in `m_value`. -/
structure ResultWithValue (T : Type) where
  m_value : ResultVariant T
deriving Repr, DecidableEq

/-- The success constructor `ResultWithValue(T&& value)`. -/
def ResultWithValue.ofValue {T : Type} (v : T) : ResultWithValue T :=
  ⟨ResultVariant.value v⟩

/-- The failure factory `ResultWithValue::Failure(std::string&& msg)`: builds
`ResultWithValue(FailureType(msg))`. It only constructs the failure state; it
does not throw. -/
def ResultWithValue.Failure {T : Type} (msg : String) : ResultWithValue T :=
  ⟨ResultVariant.failure (FailureType.mk msg)⟩

/-- `ResultWithValue::get_value()`: if `m_value` holds the `FailureType`
alternative, throws `UnhandledFailureException(failure.get_message())`
(modelled by `Except.error` carrying the same message); otherwise returns the
held value. -/
def ResultWithValue.get_value {T : Type} (r : ResultWithValue T) : Except String T :=
  match r.m_value with
  | ResultVariant.failure f => Except.error f.get_message
  | ResultVariant.value v => Except.ok v

/-- Underlying type of `enum class Colour` (defaults to `int`). The declared
enumerators are `WHITE = 0`, `BLACK = 1`, `COUNT = 2`. -/
abbrev Colour := Int

/-- `Colour::WHITE`. -/
def Colour.WHITE : Colour := 0

/-- `Colour::BLACK`. -/
def Colour.BLACK : Colour := 1

/-- `Colour::COUNT`. -/
def Colour.COUNT : Colour := 2

/-- `class AppearanceOptions`: background and text colour, with default member
initializers `Colour::WHITE` and `Colour::BLACK`. -/
structure AppearanceOptions where
  m_background_colour : Colour := Colour.WHITE
  m_text_colour : Colour := Colour.BLACK
deriving Repr, DecidableEq

/-- The public zero-argument constructor `AppearanceOptions()`: members take
their default initializers `WHITE` and `BLACK`. -/
def AppearanceOptions.defaultConstructed : AppearanceOptions :=
  {}

/-- The validating factory `AppearanceOptions::create(background, text)`:
succeeds when `background < Colour::COUNT && text < Colour::COUNT` (an `int`
comparison on the underlying values), otherwise returns
`Failure("Error: invalid colour type")`. -/
def AppearanceOptions.create (background text : Colour) :
    ResultWithValue AppearanceOptions :=
  if background < Colour.COUNT ∧ text < Colour.COUNT then
    ResultWithValue.ofValue ⟨background, text⟩
  else
    ResultWithValue.Failure "Error: invalid colour type"

/-- `AppearanceOptions::set_background_colour`: stores the argument with no
validation. -/
def AppearanceOptions.set_background_colour (o : AppearanceOptions)
    (background : Colour) : AppearanceOptions :=
  { o with m_background_colour := background }

/-- `AppearanceOptions::set_text_colour`: stores the argument with no
validation. -/
def AppearanceOptions.set_text_colour (o : AppearanceOptions)
    (text : Colour) : AppearanceOptions :=
  { o with m_text_colour := text }

/-- `AppearanceOptions::get_background_colour`. -/
def AppearanceOptions.get_background_colour (o : AppearanceOptions) : Colour :=
  o.m_background_colour

/-- `AppearanceOptions::get_text_colour`. -/
def AppearanceOptions.get_text_colour (o : AppearanceOptions) : Colour :=
  o.m_text_colour

/-- `Chart::Params`: series length and series count. -/
structure Params where
  m_series_length : Nat
  m_num_series : Nat
deriving Repr, DecidableEq

/-- `Chart::get_plot(plot_data, params, appearance, out_size)`: the rendering
stub constructs and returns `Img2<OutSize>(out_size)`, i.e. a freshly
default-initialized `RGBA` array of the requested shape (`Img2<Size>` is
`Mat2<RGBA, Size>`, whose constructor just forwards to `ArrayNd`). -/
def Chart.get_plot {E S : Type} [Size2 S] (plot_data : List E) (params : Params)
    (appearance : AppearanceOptions) (out_size : S) : ArrayNd RGBA S :=
  ArrayNd.make out_size

/-- `class Factory`: holds the appearance options handed to charts. -/
structure Factory where
  m_appearance_options : AppearanceOptions := {}

/-- `Factory::get_plot`: delegates to
`PlotType::get_plot(plot_data, params, m_appearance_options, output_size)`
(instantiated here with the `Chart` renderer, the only one in the source). -/
def Factory.get_plot {E S : Type} [Size2 S] (f : Factory) (plot_data : List E)
    (params : Params) (output_size : S) : ArrayNd RGBA S :=
  Chart.get_plot plot_data params f.m_appearance_options output_size

end PjPlot

namespace PjPlot

/-- The row-major offset of an in-range index pair is within the shape's total
element count. -/
theorem calculate_linear_idx_lt {S : Type} [Size2 S] (dims : S) {row col : Nat}
    (hr : row < Size2.rows dims) (hc : col < Size2.cols dims) :
    calculate_linear_idx dims row col < nele dims := by
  unfold calculate_linear_idx nele
  calc row * Size2.cols dims + col
      < row * Size2.cols dims + Size2.cols dims := by omega
    _ = (row + 1) * Size2.cols dims := by ring
    _ ≤ Size2.rows dims * Size2.cols dims := Nat.mul_le_mul_right _ hr

/-- Pointer traversal starting at offset `i` yields exactly the suffix of the
storage list from `i` on. -/
theorem iterFrom_eq_drop {T : Type} (data : List T) : ∀ i, iterFrom data i = data.drop i := by
  have H : ∀ n i, data.length - i ≤ n → iterFrom data i = data.drop i := by
    intro n
    induction n with
    | zero =>
      intro i hi
      unfold iterFrom
      split
      · next h => omega
      · next h =>
        rw [List.drop_eq_nil_of_le]
        omega
    | succ n ih =>
      intro i hi
      unfold iterFrom
      split
      · next h =>
        rw [ih (i + 1) (by omega), List.get_eq_getElem,
          ← List.drop_eq_getElem_cons h]
      · next h =>
        rw [List.drop_eq_nil_of_le]
        omega
  intro i
  exact H (data.length - i) i le_rfl

end PjPlot

namespace PjPlot

/-- C1. The spec demands that indexed access validate every index at call time
(`index >= extent` is an indexing fault) for static and dynamic shapes alike,
for ordinary runtime index values. The code does not: the bounds tests of
`calculate_linear_idx` sit inside `if constexpr` on runtime parameters, so no
runtime check is performed. At the failing input — shape 2 x 3, runtime indices
(row, col) = (5, 0) — the code computes linear offset 15 with no fault, for
both the static and the dynamic shape, and the ensuing storage access falls
outside the 6-element storage (`none`), while the behaviour the spec requires
(`calculate_linear_idx_required`) is an indexing fault. -/
theorem claim_C1_runtime_bounds_check_missing :
    calculate_linear_idx (StaticSize2.mk : StaticSize2 2 3) 5 0 = 15 ∧
    calculate_linear_idx (DynamicSize2.mk 2 3) 5 0 = 15 ∧
    nele (StaticSize2.mk : StaticSize2 2 3) = 6 ∧
    (ArrayNd.make (StaticSize2.mk : StaticSize2 2 3) : ArrayNd Nat (StaticSize2 2 3)).get2 5 0 = none ∧
    (ArrayNd.make (DynamicSize2.mk 2 3) : ArrayNd Nat DynamicSize2).get2 5 0 = none ∧
    calculate_linear_idx_required (StaticSize2.mk : StaticSize2 2 3) 5 0 = none ∧
    calculate_linear_idx_required (DynamicSize2.mk 2 3) 5 0 = none := by
  decide

/-- C2. For every 2-D array and in-range index pair, indexed access uses
exactly the row-major linear offset `row * cols + col`, that offset lies
within the storage, and writing a value at `(row, col)` then reading
`(row, col)` yields the written value. (The 1-D overload is the degenerate
instance of the same strided scheme: `calculate_linear_idx_1d len idx = idx`.) -/
theorem claim_C2_row_major_access {T S : Type} [Size2 S] (a : ArrayNd T S)
    (row col : Nat) (v : T)
    (hlen : a.m_data.length = a.nele)
    (hr : row < Size2.rows a.m_size) (hc : col < Size2.cols a.m_size) :
    calculate_linear_idx a.m_size row col = row * Size2.cols a.m_size + col ∧
    a.get2 row col = a.m_data[row * Size2.cols a.m_size + col]? ∧
    calculate_linear_idx a.m_size row col < a.m_data.length ∧
    (a.set2 row col v).get2 row col = some v ∧
    (∀ len idx : Nat, calculate_linear_idx_1d len idx = idx) := by
  have hidx : calculate_linear_idx a.m_size row col < a.m_data.length := by
    rw [hlen]
    exact calculate_linear_idx_lt a.m_size hr hc
  refine ⟨rfl, rfl, hidx, ?_, fun len idx => rfl⟩
  show (a.m_data.set (calculate_linear_idx a.m_size row col) v)[calculate_linear_idx a.m_size row col]? = some v
  exact List.getElem?_set_eq_of_lt v hidx

/-- C2 witness: on a dynamic 2 x 3 integer array, writing 7 at (1, 2) and
reading (1, 2) back yields 7. -/
theorem claim_C2_row_major_access_witness :
    ((ArrayNd.make (DynamicSize2.mk 2 3) : ArrayNd Int DynamicSize2).m_data.length
        = (ArrayNd.make (DynamicSize2.mk 2 3) : ArrayNd Int DynamicSize2).nele
      ∧ 1 < 2 ∧ 2 < 3) ∧
    (((ArrayNd.make (DynamicSize2.mk 2 3) : ArrayNd Int DynamicSize2).set2 1 2 7).get2 1 2
      = some 7) :=
  ⟨by decide,
    (claim_C2_row_major_access (ArrayNd.make (DynamicSize2.mk 2 3)) 1 2 7
      (by decide) (by decide) (by decide)).2.2.2.1⟩

/-- C3. A success-state `ResultWithValue` unwraps without fault to the original
value; a `Failure(m)` result is constructed without fault (the constructor
merely stores the failure state) and unwraps to an escalation fault carrying
exactly the message `m`. -/
theorem claim_C3_result_unwrap {T : Type} (v : T) (m : String) :
    (ResultWithValue.ofValue v).get_value = Except.ok v ∧
    (ResultWithValue.Failure m : ResultWithValue T) =
      ⟨ResultVariant.failure (FailureType.mk m)⟩ ∧
    (ResultWithValue.Failure m : ResultWithValue T).get_value = Except.error m :=
  ⟨rfl, rfl, rfl⟩

/-- C5. Storage length equals the shape's total element count for the whole
lifetime: a freshly constructed array (static or dynamic shape) has exactly
`rows * cols` storage slots, and the only mutating operation (writing through
indexed access) changes neither the storage length nor the shape. -/
theorem claim_C5_storage_matches_shape {T S : Type} [Inhabited T] [Size2 S]
    (size : S) (a : ArrayNd T S) (row col : Nat) (v : T) :
    (ArrayNd.make size : ArrayNd T S).m_data.length
      = Size2.rows size * Size2.cols size ∧
    (ArrayNd.make size : ArrayNd T S).m_data.length
      = (ArrayNd.make size : ArrayNd T S).nele ∧
    (a.set2 row col v).m_data.length = a.m_data.length ∧
    (a.set2 row col v).m_size = a.m_size :=
  ⟨List.length_replicate _ _, List.length_replicate _ _,
    List.length_set a.m_data _ v, rfl⟩

/-- C10. A default-constructed `AppearanceOptions` (public zero-argument
constructor, bypassing the validating factory) reports background colour
`WHITE` and text colour `BLACK`. -/
theorem claim_C10_default_constructed_colours :
    AppearanceOptions.defaultConstructed.get_background_colour = Colour.WHITE ∧
    AppearanceOptions.defaultConstructed.get_text_colour = Colour.BLACK :=
  ⟨rfl, rfl⟩

end PjPlot

namespace PjPlot

/-- C4 counterexample. The claim says `create` fails for every colour value
that is not a declared enumerator, including values produced by reinterpreting
raw integers. It does not: the guard checks only `background < Colour::COUNT &&
text < Colour::COUNT`, so the reinterpreted raw value `-1` — not one of the
declared enumerators `WHITE = 0`, `BLACK = 1`, `COUNT = 2` — is accepted and
`create(-1, WHITE)` returns a success result holding the out-of-enumeration
background colour. -/
theorem claim_C4_create_counterexample :
    AppearanceOptions.create (-1) Colour.WHITE =
      ResultWithValue.ofValue
        { m_background_colour := -1, m_text_colour := Colour.WHITE } ∧
    (-1 : Colour) ≠ Colour.WHITE ∧ (-1 : Colour) ≠ Colour.BLACK ∧
    (-1 : Colour) ≠ Colour.COUNT := by
  decide

/-- C4 amended. `AppearanceOptions::create(WHITE, BLACK)` succeeds and the
value reports background `WHITE`, text `BLACK`; in general `create` succeeds
whenever both arguments' underlying values are below `COUNT` (including
negative reinterpreted raw integers) and returns a failure result with the
message `"Error: invalid colour type"` exactly when some argument's underlying
value is `COUNT` or above. -/
theorem claim_C4_create_validation (b t b2 t2 : Colour)
    (hb : b < Colour.COUNT) (ht : t < Colour.COUNT)
    (hbad : ¬(b2 < Colour.COUNT ∧ t2 < Colour.COUNT)) :
    (AppearanceOptions.create Colour.WHITE Colour.BLACK).get_value =
      Except.ok { m_background_colour := Colour.WHITE,
                  m_text_colour := Colour.BLACK } ∧
    (AppearanceOptions.create b t).get_value =
      Except.ok { m_background_colour := b, m_text_colour := t } ∧
    (AppearanceOptions.create b2 t2).get_value =
      Except.error "Error: invalid colour type" := by
  refine ⟨?_, ?_, ?_⟩
  · rfl
  · simp only [AppearanceOptions.create, if_pos (And.intro hb ht)]
    rfl
  · simp only [AppearanceOptions.create, if_neg hbad]
    rfl

/-- C4 witness: instantiates the amended claim at `(b, t) = (WHITE, BLACK)` and
`(b2, t2) = (COUNT, WHITE)`. -/
theorem claim_C4_create_validation_witness :
    (Colour.WHITE < Colour.COUNT ∧ Colour.BLACK < Colour.COUNT ∧
      ¬(Colour.COUNT < Colour.COUNT ∧ Colour.WHITE < Colour.COUNT)) ∧
    (AppearanceOptions.create Colour.COUNT Colour.WHITE).get_value =
      Except.error "Error: invalid colour type" :=
  ⟨by decide,
    (claim_C4_create_validation Colour.WHITE Colour.BLACK Colour.COUNT
      Colour.WHITE (by decide) (by decide) (by decide)).2.2⟩

/-- C6. The plot facade returns a colour array of exactly the requested target
shape, its storage sized to that shape's element count and every in-range
element — position `(0, 0)` included — value-initialized to the default
colour; writing one colour at `(0, 0)` makes that position read back the
written value, and any other in-range position still reads the default
colour. -/
theorem claim_C6_get_plot_default_image {E S : Type} [Size2 S]
    (plot_data : List E) (params : Params) (f : Factory) (out_size : S)
    (c : RGBA) (i j : Nat)
    (hi : i < Size2.rows out_size) (hj : j < Size2.cols out_size) :
    (f.get_plot plot_data params out_size).m_size = out_size ∧
    (f.get_plot plot_data params out_size).m_data.length = nele out_size ∧
    (f.get_plot plot_data params out_size).get2 i j = some RGBA.valueInit ∧
    ((f.get_plot plot_data params out_size).set2 0 0 c).get2 0 0 = some c ∧
    (¬(i = 0 ∧ j = 0) →
      ((f.get_plot plot_data params out_size).set2 0 0 c).get2 i j
        = some RGBA.valueInit) := by
  have hcols : 0 < Size2.cols out_size := lt_of_le_of_lt (Nat.zero_le j) hj
  have hrows : 0 < Size2.rows out_size := lt_of_le_of_lt (Nat.zero_le i) hi
  have hnele : 0 < nele out_size := Nat.mul_pos hrows hcols
  have hidx : calculate_linear_idx out_size i j < nele out_size :=
    calculate_linear_idx_lt out_size hi hj
  have hidx0 : calculate_linear_idx out_size 0 0 = 0 := by
    simp [calculate_linear_idx]
  have hexp : calculate_linear_idx out_size i j
      = i * Size2.cols out_size + j := rfl
  have hdef : (default : RGBA) = RGBA.valueInit := rfl
  refine ⟨rfl, List.length_replicate _ _, ?_, ?_, ?_⟩
  · show (List.replicate (nele out_size) (default : RGBA))[calculate_linear_idx out_size i j]?
      = some RGBA.valueInit
    simp [List.getElem?_replicate, hidx, hdef]
  · show ((List.replicate (nele out_size) (default : RGBA)).set
        (calculate_linear_idx out_size 0 0) c)[calculate_linear_idx out_size 0 0]?
      = some c
    rw [hidx0]
    exact List.getElem?_set_eq_of_lt c
      (by rw [List.length_replicate]; exact hnele)
  · intro hij
    have hne : (0 : Nat) ≠ calculate_linear_idx out_size i j := by
      rw [hexp]
      rcases Nat.eq_zero_or_pos i with h0 | hpos
      · subst h0
        have hj0 : j ≠ 0 := fun hj0 => hij ⟨rfl, hj0⟩
        omega
      · have hle : Size2.cols out_size ≤ i * Size2.cols out_size :=
          Nat.le_mul_of_pos_left _ hpos
        omega
    show ((List.replicate (nele out_size) (default : RGBA)).set
        (calculate_linear_idx out_size 0 0) c)[calculate_linear_idx out_size i j]?
      = some RGBA.valueInit
    rw [hidx0, List.getElem?_set_ne hne]
    simp [List.getElem?_replicate, hidx, hdef]

/-- C6 witness: instantiates the claim at a static 600 x 600 colour image,
checking both that the freshly constructed image reads the default colour at
(0, 0) and that (0, 1) still reads the default colour after a write at
(0, 0). -/
theorem claim_C6_get_plot_default_image_witness :
    (0 < 600 ∧ 1 < 600) ∧
    (Factory.get_plot {} ([] : List Int) (Params.mk 1 1)
        (StaticSize2.mk : StaticSize2 600 600)).get2 0 0
      = some RGBA.valueInit ∧
    ((Factory.get_plot {} ([] : List Int) (Params.mk 1 1)
        (StaticSize2.mk : StaticSize2 600 600)).set2 0 0 (RGBA.mk 1 2 3 4)).get2 0 1
      = some RGBA.valueInit :=
  ⟨by decide,
    (claim_C6_get_plot_default_image ([] : List Int) (Params.mk 1 1) {}
      (StaticSize2.mk : StaticSize2 600 600) (RGBA.mk 1 2 3 4) 0 0
      (by decide) (by decide)).2.2.1,
    (claim_C6_get_plot_default_image ([] : List Int) (Params.mk 1 1) {}
      (StaticSize2.mk : StaticSize2 600 600) (RGBA.mk 1 2 3 4) 0 1
      (by decide) (by decide)).2.2.2.2 (by decide)⟩

/-- C8 counterexample. The claim says every `AppearanceOptions` in existence
comes from the validating factory, so its colours always lie in the declared
range. But the public zero-argument constructor and the unvalidating setters
are other paths: default-constructing and then calling
`set_background_colour` with the reinterpreted raw value 5 yields an instance
whose background colour is 5, which is not below `Colour::COUNT`. -/
theorem claim_C8_setter_counterexample :
    (AppearanceOptions.defaultConstructed.set_background_colour 5).get_background_colour
      = 5 ∧
    ¬((5 : Colour) < Colour.COUNT) := by
  decide

/-- C8 amended. `AppearanceOptions` values are also producible by the public
zero-argument constructor and mutable through unvalidating setters, so the
claimed always-in-range invariant does not hold; what the code guarantees is
that every value successfully produced by the validating factory has both
colours with underlying value below `COUNT`, and that the default constructor
yields the in-range colours `WHITE` and `BLACK`. -/
theorem claim_C8_factory_path_bound (b t : Colour) (o : AppearanceOptions)
    (h : (AppearanceOptions.create b t).get_value = Except.ok o) :
    o.get_background_colour < Colour.COUNT ∧
    o.get_text_colour < Colour.COUNT ∧
    AppearanceOptions.defaultConstructed.get_background_colour < Colour.COUNT ∧
    AppearanceOptions.defaultConstructed.get_text_colour < Colour.COUNT := by
  by_cases hc : b < Colour.COUNT ∧ t < Colour.COUNT
  · simp only [AppearanceOptions.create, if_pos hc, ResultWithValue.ofValue,
      ResultWithValue.get_value, Except.ok.injEq] at h
    subst h
    exact ⟨hc.1, hc.2, by decide, by decide⟩
  · simp only [AppearanceOptions.create, if_neg hc, ResultWithValue.Failure,
      ResultWithValue.get_value, FailureType.get_message] at h
    exact absurd h (by simp)

/-- C8 witness: instantiates the amended claim at the factory call
`create(WHITE, BLACK)`. -/
theorem claim_C8_factory_path_bound_witness :
    ((AppearanceOptions.create Colour.WHITE Colour.BLACK).get_value =
      Except.ok { m_background_colour := Colour.WHITE,
                  m_text_colour := Colour.BLACK }) ∧
    ({ m_background_colour := Colour.WHITE,
       m_text_colour := Colour.BLACK : AppearanceOptions }.get_background_colour
      < Colour.COUNT) :=
  ⟨rfl,
    (claim_C8_factory_path_bound Colour.WHITE Colour.BLACK
      { m_background_colour := Colour.WHITE, m_text_colour := Colour.BLACK }
      rfl).1⟩

/-- C9. A full iteration from `begin()` to `end()` visits exactly the storage
sequence in storage (row-major) order — it equals the storage list itself, so
each linear offset is visited exactly once and in order — and its length is the
shape's element count. `ArrayNd.iterate` is a pure function of the array value,
so iterating again without an intervening mutation yields the same sequence. -/
theorem claim_C9_iteration_order {T S : Type} [Size2 S] (a : ArrayNd T S)
    (hlen : a.m_data.length = a.nele) :
    a.iterate = a.m_data ∧
    a.iterate.length = a.nele ∧
    ∀ k, k < a.nele → a.iterate[k]? = a.m_data[k]? := by
  have h1 : a.iterate = a.m_data := by
    unfold ArrayNd.iterate
    rw [iterFrom_eq_drop, List.drop_zero]
  exact ⟨h1, by rw [h1, hlen], fun k _ => by rw [h1]⟩

/-- C9 witness: instantiates the claim on a dynamic 2 x 2 integer array. -/
theorem claim_C9_iteration_order_witness :
    ((ArrayNd.make (DynamicSize2.mk 2 2) : ArrayNd Int DynamicSize2).m_data.length
      = (ArrayNd.make (DynamicSize2.mk 2 2) : ArrayNd Int DynamicSize2).nele) ∧
    (ArrayNd.make (DynamicSize2.mk 2 2) : ArrayNd Int DynamicSize2).iterate
      = (ArrayNd.make (DynamicSize2.mk 2 2) : ArrayNd Int DynamicSize2).m_data :=
  ⟨by decide,
    (claim_C9_iteration_order (ArrayNd.make (DynamicSize2.mk 2 2)) (by decide)).1⟩

end PjPlot
